import Mathlib

/-!
Shallow embedding of the API Facade (`src/frontend/src/contexts/ApiContext.tsx`)
and the Chat Session Controller (`src/alice_frontend/src/contexts/ChatContext.tsx`)
of the project_alice web client.

Modelling conventions:
* Each asynchronous operation is embedded as a pure function from its oracle
  inputs (the outcome of every remote call it may issue, and any user dialog
  choice) to the pair of (a) the temporally ordered list of side effects it
  performs (remote-call issuances, notifications, event-bus publishes) and
  (b) its settled outcome, `Except ApiError α` for operations whose promise may
  reject and a plain value for operations that never reject.
* The trace list is in execution order: the code awaits every remote call, so
  an effect's position in the list is its temporal position.
* The Chat Session Controller's React state is a `ChatState` record and each
  handler is an explicit state-transition function.
-/

namespace ProjectAlice

/-- Errors carried by rejected promises; the payload is opaque to the client. -/
abbrev ApiError := String

/-- Severity levels of the Notification Sink contract
(`addNotification(message, severity, ...)`). -/
inductive Severity where
  | success
  | error
  | info
deriving DecidableEq, Repr

/-- One observable side effect of an API Facade operation, in execution order:
a remote endpoint being invoked, a notification shown, or an event-bus publish
(`globalEventEmitter.emit`) with its string key. -/
inductive Effect where
  | remoteCall (endpoint : String)
  | notify (message : String) (severity : Severity)
  | emit (key : String)
deriving DecidableEq, Repr

/-- Agent record (`AliceAgent`); only identity is relevant to the claims. -/
structure AliceAgent where
  agentId : Option String
deriving DecidableEq, Repr

/-- Message record (`MessageType`): a role (e.g. "user", "assistant") and content. -/
structure MessageType where
  role : String
  content : String
deriving DecidableEq, Repr

/-- Task record (`AliceTask`); `_id` is optional as in the TS type (unsaved
tasks have no identifier). -/
structure AliceTask where
  _id : Option String
deriving DecidableEq, Repr

/-- Chat record (`AliceChat`): ordered messages, the chat's single agent, and
the attached task definitions (`functions`). -/
structure AliceChat where
  _id : Option String
  messages : List MessageType
  alice_agent : AliceAgent
  functions : List AliceTask
deriving DecidableEq, Repr

/-- File record (`FileReference`): identifier plus optional transcript. -/
structure FileReference where
  _id : Option String
  transcript : Option MessageType
deriving DecidableEq, Repr

/-! ## API Facade operations (ApiContext.tsx)

Each function takes the outcome of the remote calls it issues as explicit
`Except ApiError _` oracle arguments, mirroring the `await`ed promise. -/

/-- `createItem(collectionName, itemData)`: awaits `apiCreateItem`; on success
notifies success then emits `created:<collection>` and resolves with the
created item; on failure notifies error and re-raises. -/
def createItem {α : Type} (collectionName : String)
    (remote : Except ApiError α) : List Effect × Except ApiError α :=
  match remote with
  | .ok createdItem =>
      ([.remoteCall "createItem",
        .notify (collectionName ++ " created successfully") .success,
        .emit ("created:" ++ collectionName)],
       .ok createdItem)
  | .error e =>
      ([.remoteCall "createItem",
        .notify ("Error creating " ++ collectionName) .error],
       .error e)

/-- `updateItem(collectionName, itemId, itemData)`: awaits `apiUpdateItem`; on
success notifies success then emits `updated:<collection>`; on failure notifies
error and re-raises. -/
def updateItem {α : Type} (collectionName : String) (_itemId : String)
    (remote : Except ApiError α) : List Effect × Except ApiError α :=
  match remote with
  | .ok updatedItem =>
      ([.remoteCall "updateItem",
        .notify (collectionName ++ " updated successfully") .success,
        .emit ("updated:" ++ collectionName)],
       .ok updatedItem)
  | .error e =>
      ([.remoteCall "updateItem",
        .notify ("Error updating " ++ collectionName) .error],
       .error e)

/-- `fetchItem(collectionName, itemId?)` is exposed unwrapped
(`fetchItem: apiFetchItem` in the provider's value object): the remote call's
outcome is passed straight through with no notification and no event. -/
def fetchItem {α : Type} (remote : Except ApiError α) :
    List Effect × Except ApiError α :=
  ([.remoteCall "fetchItem"], remote)

/-- `retrieveFile` is likewise exposed unwrapped (`retrieveFile: apiRetrieveFile`). -/
def retrieveFile {α : Type} (remote : Except ApiError α) :
    List Effect × Except ApiError α :=
  ([.remoteCall "retrieveFile"], remote)

/-- `deleteItem(collectionName, itemId)`: opens the confirmation dialog before
any remote call. `confirmed` is the user's dialog choice; `remote` the delete
call's outcome (only consulted when confirmed). Resolves a `Bool`, never
rejects: `true` on confirmed-and-successful deletion, `false` otherwise. -/
def deleteItem (collectionName : String) (_itemId : String) (confirmed : Bool)
    (remote : Except ApiError Unit) : List Effect × Bool :=
  if confirmed then
    match remote with
    | .ok _ =>
        ([.remoteCall "deleteItem",
          .notify (collectionName ++ " deleted successfully") .success,
          .emit ("deleted:" ++ collectionName)],
         true)
    | .error _ =>
        ([.remoteCall "deleteItem",
          .notify ("Error deleting " ++ collectionName) .error],
         false)
  else
    ([.notify ("Deletion of " ++ collectionName ++ " cancelled") .info], false)

/-- `executeTask(taskId, inputs)`: on success notifies then emits
`created:taskresults`; on failure notifies error and re-raises. -/
def executeTask {α : Type} (remote : Except ApiError α) :
    List Effect × Except ApiError α :=
  match remote with
  | .ok result =>
      ([.remoteCall "executeTask",
        .notify "Task executed successfully" .success,
        .emit "created:taskresults"],
       .ok result)
  | .error e =>
      ([.remoteCall "executeTask",
        .notify "Error executing task" .error],
       .error e)

/-- `generateChatResponse(chatId)`: awaits `apiGenerateChatResponse`; on any
resolved result notifies success; if the result is truthy additionally
re-fetches the chat and emits `updated:chats`. A failure of either awaited
call is caught once: error notification, then re-raise. -/
def generateChatResponse (remote : Except ApiError Bool)
    (refetch : Except ApiError AliceChat) : List Effect × Except ApiError Bool :=
  match remote with
  | .error e =>
      ([.remoteCall "generateChatResponse",
        .notify "Error generating chat response" .error],
       .error e)
  | .ok result =>
      if result then
        match refetch with
        | .ok _ =>
            ([.remoteCall "generateChatResponse",
              .notify "Chat response generated successfully" .success,
              .remoteCall "fetchItem",
              .emit "updated:chats"],
             .ok result)
        | .error e =>
            ([.remoteCall "generateChatResponse",
              .notify "Chat response generated successfully" .success,
              .remoteCall "fetchItem",
              .notify "Error generating chat response" .error],
             .error e)
      else
        ([.remoteCall "generateChatResponse",
          .notify "Chat response generated successfully" .success],
         .ok result)

/-- `sendMessage(chatId, message)`: on success notifies, then emits
`created:messages` (with the original message) and `updated:chats` (with the
returned chat); on failure notifies error and re-raises. -/
def sendMessage (remote : Except ApiError AliceChat) :
    List Effect × Except ApiError AliceChat :=
  match remote with
  | .ok result =>
      ([.remoteCall "sendMessage",
        .notify "Message sent successfully" .success,
        .emit "created:messages",
        .emit "updated:chats"],
       .ok result)
  | .error e =>
      ([.remoteCall "sendMessage",
        .notify "Error sending message" .error],
       .error e)

/-- `uploadFileContentReference(itemData)`: like `createItem` for `files`. -/
def uploadFileContentReference (remote : Except ApiError FileReference) :
    List Effect × Except ApiError FileReference :=
  match remote with
  | .ok result =>
      ([.remoteCall "uploadFileContentReference",
        .notify "File uploaded successfully" .success,
        .emit "created:files"],
       .ok result)
  | .error e =>
      ([.remoteCall "uploadFileContentReference",
        .notify "Error uploading file" .error],
       .error e)

/-- `updateFile(file, fileId?)`: like `updateItem` for `files`. -/
def updateFile (remote : Except ApiError FileReference) :
    List Effect × Except ApiError FileReference :=
  match remote with
  | .ok result =>
      ([.remoteCall "updateFile",
        .notify "File updated successfully" .success,
        .emit "updated:files"],
       .ok result)
  | .error e =>
      ([.remoteCall "updateFile",
        .notify "Error updating file" .error],
       .error e)

/-- `updateMessageInChat(chatId, message)`: on success notifies, emits
`updated:messages`, re-fetches the chat and emits `updated:chats`. A failure of
either awaited call is caught once: error notification, then re-raise. -/
def updateMessageInChat (remote : Except ApiError MessageType)
    (refetch : Except ApiError AliceChat) :
    List Effect × Except ApiError MessageType :=
  match remote with
  | .error e =>
      ([.remoteCall "updateMessageInChat",
        .notify "Error updating message" .error],
       .error e)
  | .ok result =>
      match refetch with
      | .ok _ =>
          ([.remoteCall "updateMessageInChat",
            .notify "Message updated successfully" .success,
            .emit "updated:messages",
            .remoteCall "fetchItem",
            .emit "updated:chats"],
           .ok result)
      | .error e =>
          ([.remoteCall "updateMessageInChat",
            .notify "Message updated successfully" .success,
            .emit "updated:messages",
            .remoteCall "fetchItem",
            .notify "Error updating message" .error],
           .error e)

/-- `purgeAndReinitializeDatabase()`: on success notifies then emits the
unqualified `databasePurged` signal; on failure notifies error and re-raises. -/
def purgeAndReinitializeDatabase (remote : Except ApiError Unit) :
    List Effect × Except ApiError Unit :=
  match remote with
  | .ok _ =>
      ([.remoteCall "purgeAndReinitializeDatabase",
        .notify "Database purged and reinitialized successfully" .success,
        .emit "databasePurged"],
       .ok ())
  | .error e =>
      ([.remoteCall "purgeAndReinitializeDatabase",
        .notify "Error purging and reinitializing database" .error],
       .error e)

/-- `requestFileTranscript(fileId, agentId?, chatId?)`: fetches the file
(`fileFetch`); with an existing transcript, opens the "Generate New" / "Use
Existing" dialog (`generateNew` is the user's choice) and only on "Generate
New" calls the transcription endpoint (`transcribe`) and persists via the
wrapped `updateItem` (`persist` is that remote call's outcome); with no
transcript it transcribes and persists unconditionally. -/
def requestFileTranscript (fileId : String)
    (fileFetch : Except ApiError FileReference) (generateNew : Bool)
    (transcribe : Except ApiError MessageType)
    (persist : Except ApiError FileReference) :
    List Effect × Except ApiError MessageType :=
  match fileFetch with
  | .error e =>
      ([.remoteCall "fetchItem",
        .notify "Error requesting transcript" .error],
       .error e)
  | .ok fileData =>
      match fileData.transcript with
      | some existing =>
          if generateNew then
            match transcribe with
            | .error e =>
                ([.remoteCall "fetchItem",
                  .remoteCall "requestFileTranscript",
                  .notify "Error generating new transcript" .error],
                 .error e)
            | .ok newTranscript =>
                let upd := updateItem "files" fileId persist
                match upd.2 with
                | .ok _ =>
                    ([.remoteCall "fetchItem",
                      .remoteCall "requestFileTranscript"] ++ upd.1 ++
                     [.notify "New transcript generated successfully" .success],
                     .ok newTranscript)
                | .error e =>
                    ([.remoteCall "fetchItem",
                      .remoteCall "requestFileTranscript"] ++ upd.1 ++
                     [.notify "Error generating new transcript" .error],
                     .error e)
          else
            ([.remoteCall "fetchItem",
              .notify "Using existing transcript" .info],
             .ok existing)
      | none =>
          match transcribe with
          | .error e =>
              ([.remoteCall "fetchItem",
                .remoteCall "requestFileTranscript",
                .notify "Error requesting transcript" .error],
               .error e)
          | .ok transcript =>
              let upd := updateItem "files" fileId persist
              match upd.2 with
              | .ok _ =>
                  ([.remoteCall "fetchItem",
                    .remoteCall "requestFileTranscript"] ++ upd.1 ++
                   [.notify "Transcript generated successfully" .success],
                   .ok transcript)
              | .error e =>
                  ([.remoteCall "fetchItem",
                    .remoteCall "requestFileTranscript"] ++ upd.1 ++
                   [.notify "Error requesting transcript" .error],
                   .error e)

/-! ## Trace observations -/

/-- Is this effect a success notification? -/
def isSuccessNotify : Effect → Bool
  | .notify _ .success => true
  | _ => false

/-- Is this effect an error notification? -/
def isErrorNotify : Effect → Bool
  | .notify _ .error => true
  | _ => false

/-- Is this effect an event-bus publish? -/
def isEmit : Effect → Bool
  | .emit _ => true
  | _ => false

/-- Is this effect a remote-call issuance? -/
def isRemote : Effect → Bool
  | .remoteCall _ => true
  | _ => false

/-- Number of success notifications in a trace. -/
def countSuccessNotify : List Effect → Nat
  | [] => 0
  | e :: rest => (if isSuccessNotify e then 1 else 0) + countSuccessNotify rest

/-- Number of error notifications in a trace. -/
def countErrorNotify : List Effect → Nat
  | [] => 0
  | e :: rest => (if isErrorNotify e then 1 else 0) + countErrorNotify rest

/-- Number of event-bus publishes in a trace. -/
def countEmit : List Effect → Nat
  | [] => 0
  | e :: rest => (if isEmit e then 1 else 0) + countEmit rest

/-- Number of remote-call issuances in a trace. -/
def countRemote : List Effect → Nat
  | [] => 0
  | e :: rest => (if isRemote e then 1 else 0) + countRemote rest

/-- Number of remote calls to one named endpoint in a trace. -/
def countCallsTo (endpoint : String) : List Effect → Nat
  | [] => 0
  | .remoteCall ep :: rest =>
      (if ep = endpoint then 1 else 0) + countCallsTo endpoint rest
  | _ :: rest => countCallsTo endpoint rest

/-- Scans a trace up to its first success notification: that notification must
be preceded by at least one remote-call issuance (`seenCall` records one) and
by no event-bus publish. Everything after the first success notification is
unconstrained. -/
def orderedAux (seenCall : Bool) : List Effect → Bool
  | [] => false
  | .remoteCall _ :: rest => orderedAux true rest
  | .notify _ .success :: _ => seenCall
  | .emit _ :: _ => false
  | .notify _ _ :: rest => orderedAux seenCall rest

/-- The side-effect ordering contract for one operation's trace: a success
notification exists, it comes after a remote call was issued (hence, in a
trace, after that call resolved) and before any event-bus publish. -/
def notifyThenEmitOrdered (tr : List Effect) : Bool :=
  orderedAux false tr

/-! ## Chat Session Controller (ChatContext.tsx)

The provider's React state, with each handler an explicit state transition.
`pastChats` is omitted: no claim mentions it and no modelled handler reads it. -/

/-- The controller's local state: the displayed message list, the selected
chat id, the singleton agent list, the generation-in-progress flag, and the
locally mirrored chat record. -/
structure ChatState where
  messages : List MessageType
  currentChatId : Option String
  agents : List AliceAgent
  isGenerating : Bool
  currentChat : Option AliceChat
deriving DecidableEq, Repr

/-- The provider's initial state (`useState` defaults). -/
def initialChatState : ChatState :=
  { messages := [], currentChatId := none, agents := [], isGenerating := false,
    currentChat := none }

/-- `handleSelectChat(chatId)`: fetches the chat; on success replaces
`currentChat`, `messages`, `currentChatId` and `agents` together; on failure
the error is caught and logged, leaving all state at its prior values. -/
def handleSelectChat (s : ChatState) (chatId : String)
    (fetched : Except ApiError AliceChat) : ChatState :=
  match fetched with
  | .ok chatData =>
      { s with currentChat := some chatData, messages := chatData.messages,
               currentChatId := some chatId, agents := [chatData.alice_agent] }
  | .error _ => s

/-- `fetchCurrentChat()`: no-op without a selected chat; otherwise fetches it
and on success replaces `currentChat`, `messages` and `agents`; its own catch
swallows a fetch failure (state untouched). -/
def fetchCurrentChat (s : ChatState) (fetched : Except ApiError AliceChat) :
    ChatState :=
  match s.currentChatId with
  | none => s
  | some _ =>
      match fetched with
      | .ok chatData =>
          { s with currentChat := some chatData, messages := chatData.messages,
                   agents := [chatData.alice_agent] }
      | .error _ => s

/-- `generateResponse()`: no-op without a selected chat. Otherwise sets
`isGenerating := true`, awaits the facade's `generateChatResponse` (`remote`);
on a truthy result runs `fetchCurrentChat` (`refetch` is that fetch's
outcome); any rejection is caught and logged; the `finally` block resets
`isGenerating := false` on every path. -/
def generateResponse (s : ChatState) (remote : Except ApiError Bool)
    (refetch : Except ApiError AliceChat) : ChatState :=
  match s.currentChatId with
  | none => s
  | some _ =>
      let s1 : ChatState := { s with isGenerating := true }
      match remote with
      | .error _ => { s1 with isGenerating := false }
      | .ok response =>
          if response then
            { fetchCurrentChat s1 refetch with isGenerating := false }
          else
            { s1 with isGenerating := false }

/-- `handleSendMessage(currentChatId, message)`: awaits the facade's
`sendMessage` (`sendRemote`); on success appends the message to the local list
and then awaits `generateResponse` (which never rejects); a send rejection is
caught and logged, leaving the state untouched. The returned `Bool` records
whether `generateResponse` was invoked. -/
def handleSendMessage (s : ChatState) (message : MessageType)
    (sendRemote : Except ApiError AliceChat) (genRemote : Except ApiError Bool)
    (genRefetch : Except ApiError AliceChat) : ChatState × Bool :=
  match sendRemote with
  | .error _ => (s, false)
  | .ok _ =>
      (generateResponse { s with messages := s.messages ++ [message] }
        genRemote genRefetch,
       true)

/-- The `while` loop of `handleRegenerateResponse`: pop from the end while the
sequence is nonempty and its last element's role is not "user". -/
def trimTrailingNonUser (ms : List MessageType) : List MessageType :=
  match h : ms.getLast? with
  | none => ms
  | some m =>
      if m.role ≠ "user" then trimTrailingNonUser ms.dropLast else ms
termination_by ms.length
decreasing_by
  cases ms with
  | nil => simp at h
  | cons a as => simp [List.length_dropLast]

/-- `handleRegenerateResponse()`: no-op without a selected chat. Otherwise
trims the trailing non-user messages, persists the trimmed list through the
facade's `updateItem` (`persistRemote` is that call's outcome), and on success
installs the trimmed list locally and awaits `generateResponse`; a persistence
failure is caught and logged, leaving the state untouched. The second
component records the message list handed to `updateItem`, `none` when no
remote persist was attempted. -/
def handleRegenerateResponse (s : ChatState)
    (persistRemote : Except ApiError AliceChat)
    (genRemote : Except ApiError Bool) (genRefetch : Except ApiError AliceChat) :
    ChatState × Option (List MessageType) :=
  match s.currentChatId with
  | none => (s, none)
  | some _ =>
      let newMessages := trimTrailingNonUser s.messages
      match persistRemote with
      | .error _ => (s, some newMessages)
      | .ok _ =>
          (generateResponse { s with messages := newMessages }
            genRemote genRefetch,
           some newMessages)

/-- `isTaskInChat(taskId)`: membership of the identifier in
`currentChat.functions` (`task._id === taskId`; an absent `_id` matches
nothing); `false` when no chat is selected. -/
def isTaskInChat (s : ChatState) (taskId : String) : Bool :=
  match s.currentChat with
  | none => false
  | some chat => chat.functions.any (fun task => task._id == some taskId)

/-! ### A deterministic remote backend, for `addTaskToChat`

`addTaskToChat` persists and then re-fetches the same chat, so its net effect
depends on the backend echoing what was stored. The backend is modelled as two
keyed stores; `fetchItem`/`updateItem` read and write them. -/

/-- The remote store: chats and tasks keyed by identifier. -/
structure Backend where
  chats : List (String × AliceChat)
  tasks : List (String × AliceTask)
deriving Repr

/-- Key lookup in a store (first binding wins). -/
def storeLookup {α : Type} : List (String × α) → String → Option α
  | [], _ => none
  | (k, v) :: rest, key => if k = key then some v else storeLookup rest key

/-- Writing a chat's `functions` field in the store, as
`updateItem("chats", chatId, { functions })` does remotely. -/
def storeSetFunctions (b : Backend) (chatId : String)
    (fns : List AliceTask) : Backend :=
  { b with
    chats := b.chats.map (fun kv =>
      if kv.1 = chatId then (kv.1, { kv.2 with functions := fns }) else kv) }

/-- `addTaskToChat(taskId)` against the deterministic backend: no-op if no
chat/chat-id is selected, if the task is not found remotely, or if it is
already in `currentChat.functions`; otherwise appends the fetched task to the
functions list, persists it, and fully reloads the chat via
`handleSelectChat`. A missing chat record makes the persist reject; the
handler's catch then leaves the local state untouched. -/
def addTaskToChat (s : ChatState) (b : Backend) (taskId : String) :
    ChatState × Backend :=
  match s.currentChatId, s.currentChat with
  | some chatId, some chat =>
      match storeLookup b.tasks taskId with
      | none => (s, b)
      | some task =>
          if isTaskInChat s taskId then (s, b)
          else
            match storeLookup b.chats chatId with
            | none => (s, b)
            | some _ =>
                let updatedFunctions := chat.functions ++ [task]
                let b1 := storeSetFunctions b chatId updatedFunctions
                let refetched : Except ApiError AliceChat :=
                  match storeLookup b1.chats chatId with
                  | some c => .ok c
                  | none => .error "chat not found"
                (handleSelectChat s chatId refetched, b1)
  | _, _ => (s, b)

/-! ### Collection fetches that normalize scalars -/

/-- What `fetchItem("tasks")` may yield from the backend's viewpoint: a single
scalar item, a collection, or a rejection. -/
inductive FetchListOutcome (α : Type) where
  | scalar (item : α)
  | collection (items : List α)
  | failure (e : ApiError)
deriving Repr

/-- `fetchAvailableTasks()`: fetches the whole `tasks` collection, wraps a
scalar result into a one-element array (`Array.isArray` check), and resolves
with `[]` when the fetch rejects (the error is caught and logged). -/
def fetchAvailableTasks (outcome : FetchListOutcome AliceTask) :
    List AliceTask :=
  match outcome with
  | .scalar item => [item]
  | .collection items => items
  | .failure _ => []

/-- Task-result record (`TaskResponse`); only identity is relevant here. -/
structure TaskResponse where
  _id : Option String
deriving DecidableEq, Repr

/-- `fetchAvailableTaskResults()`: same normalization over `taskresults`. -/
def fetchAvailableTaskResults (outcome : FetchListOutcome TaskResponse) :
    List TaskResponse :=
  match outcome with
  | .scalar item => [item]
  | .collection items => items
  | .failure _ => []

/-! ### Sequential runs of controller operations

The event loop is single threaded and every handler is awaited to completion,
so the states at which a new handler can start are exactly those reachable by
a sequence of settled operations from the provider's initial state. -/

/-- One settled controller operation together with its oracle inputs. -/
inductive ChatOp where
  | selectChat (chatId : String) (fetched : Except ApiError AliceChat)
  | sendChatMessage (message : MessageType) (sendRemote : Except ApiError AliceChat)
      (genRemote : Except ApiError Bool) (genRefetch : Except ApiError AliceChat)
  | generate (genRemote : Except ApiError Bool)
      (genRefetch : Except ApiError AliceChat)
  | regenerate (persistRemote : Except ApiError AliceChat)
      (genRemote : Except ApiError Bool) (genRefetch : Except ApiError AliceChat)
  | addTask (b : Backend) (taskId : String)
deriving Repr

/-- The state transition of one settled controller operation. -/
def chatStep (s : ChatState) : ChatOp → ChatState
  | .selectChat chatId fetched => handleSelectChat s chatId fetched
  | .sendChatMessage m sendRemote genRemote genRefetch =>
      (handleSendMessage s m sendRemote genRemote genRefetch).1
  | .generate genRemote genRefetch => generateResponse s genRemote genRefetch
  | .regenerate persistRemote genRemote genRefetch =>
      (handleRegenerateResponse s persistRemote genRemote genRefetch).1
  | .addTask b taskId => (addTaskToChat s b taskId).1

/-- Runs a sequence of settled controller operations. -/
def runChatOps (s : ChatState) : List ChatOp → ChatState
  | [] => s
  | op :: ops => runChatOps (chatStep s op) ops

/-! ## Claims -/

/-- C1: for every API Facade operation, the success notification is issued
after the remote call resolves and before the corresponding event-bus publish;
in particular every successful `createItem` / `updateItem` call performs
exactly one success notification and exactly one publish, in that order,
within the trace produced before the promise resolves. `generateChatResponse`
is covered for both a truthy and a falsy result (the falsy case publishes no
event, so the ordering constraint is on the notification alone). -/
theorem claim_facade_notification_before_event :
    (∀ (α : Type) (c : String) (item : α),
      notifyThenEmitOrdered (createItem c (.ok item)).1 = true ∧
      countSuccessNotify (createItem c (.ok item)).1 = 1 ∧
      countEmit (createItem c (.ok item)).1 = 1) ∧
    (∀ (α : Type) (c i : String) (item : α),
      notifyThenEmitOrdered (updateItem c i (.ok item)).1 = true ∧
      countSuccessNotify (updateItem c i (.ok item)).1 = 1 ∧
      countEmit (updateItem c i (.ok item)).1 = 1) ∧
    (∀ (c i : String),
      notifyThenEmitOrdered (deleteItem c i true (.ok ())).1 = true) ∧
    (∀ (α : Type) (r : α),
      notifyThenEmitOrdered (executeTask (.ok r)).1 = true) ∧
    (∀ (chat : AliceChat) (b : Bool),
      notifyThenEmitOrdered (generateChatResponse (.ok b) (.ok chat)).1 = true) ∧
    (∀ (chat : AliceChat),
      notifyThenEmitOrdered (sendMessage (.ok chat)).1 = true) ∧
    (∀ (f : FileReference),
      notifyThenEmitOrdered (uploadFileContentReference (.ok f)).1 = true) ∧
    (∀ (f : FileReference),
      notifyThenEmitOrdered (updateFile (.ok f)).1 = true) ∧
    (∀ (m : MessageType) (chat : AliceChat),
      notifyThenEmitOrdered (updateMessageInChat (.ok m) (.ok chat)).1 = true) ∧
    notifyThenEmitOrdered (purgeAndReinitializeDatabase (.ok ())).1 = true := by
  refine ⟨fun α c item => ⟨rfl, rfl, rfl⟩, fun α c i item => ⟨rfl, rfl, rfl⟩,
    fun c i => rfl, fun α r => rfl, fun chat b => ?_, fun chat => rfl,
    fun f => rfl, fun f => rfl, fun m chat => rfl, rfl⟩
  cases b <;> rfl

/-- C2: `deleteItem` resolves `true` iff the user confirmed and the remote
delete succeeded; on cancellation or confirmed-but-failed deletion it resolves
`false` (the return type `Bool` reflects that the promise never rejects); on
cancellation no remote call is issued. -/
theorem claim_deleteItem_confirm_contract :
    (∀ (c i : String) (confirmed : Bool) (remote : Except ApiError Unit),
      ((deleteItem c i confirmed remote).2 = true ↔
        confirmed = true ∧ remote = .ok ())) ∧
    (∀ (c i : String) (remote : Except ApiError Unit),
      countRemote (deleteItem c i false remote).1 = 0) := by
  constructor
  · intro c i confirmed remote
    cases confirmed <;> cases remote <;>
      simp [deleteItem]
  · intro c i remote
    rfl

/-- Witness for C2 at concrete inputs: confirmed and successful deletion of a
chat resolves `true`, and a cancelled deletion issues no remote call. -/
theorem claim_deleteItem_confirm_contract_witness :
    (deleteItem "chats" "c2" true (.ok ())).2 = true ∧
    countRemote (deleteItem "chats" "c2" false (.ok ())).1 = 0 :=
  ⟨(claim_deleteItem_confirm_contract.1 "chats" "c2" true (.ok ())).mpr
      ⟨rfl, rfl⟩,
   claim_deleteItem_confirm_contract.2 "chats" "c2" (.ok ())⟩

/-- C5: if the remote send inside `handleSendMessage` rejects, the whole local
state — in particular the message list — is unchanged and `generateResponse`
is not invoked (the invocation flag is `false`); on a successful send the
message is appended to the local list before `generateResponse` runs. -/
theorem claim_handleSendMessage_failure_no_append :
    (∀ (s : ChatState) (msg : MessageType) (e : ApiError)
       (genRemote : Except ApiError Bool) (genRefetch : Except ApiError AliceChat),
      handleSendMessage s msg (.error e) genRemote genRefetch = (s, false)) ∧
    (∀ (s : ChatState) (msg : MessageType) (chat : AliceChat)
       (genRemote : Except ApiError Bool) (genRefetch : Except ApiError AliceChat),
      handleSendMessage s msg (.ok chat) genRemote genRefetch =
        (generateResponse { s with messages := s.messages ++ [msg] }
          genRemote genRefetch, true)) := by
  exact ⟨fun s msg e genRemote genRefetch => rfl,
         fun s msg chat genRemote genRefetch => rfl⟩

/-- C9: `fetchAvailableTasks` and `fetchAvailableTaskResults` wrap a scalar
backend result into a one-element list and return a collection unchanged. -/
theorem claim_fetch_normalizes_scalar :
    (∀ t : AliceTask, fetchAvailableTasks (.scalar t) = [t]) ∧
    (∀ ts : List AliceTask, fetchAvailableTasks (.collection ts) = ts) ∧
    (∀ r : TaskResponse, fetchAvailableTaskResults (.scalar r) = [r]) ∧
    (∀ rs : List TaskResponse, fetchAvailableTaskResults (.collection rs) = rs) :=
  ⟨fun _ => rfl, fun _ => rfl, fun _ => rfl, fun _ => rfl⟩

/-- C10: when the underlying fetch fails, `fetchAvailableTasks` and
`fetchAvailableTaskResults` resolve with the empty list instead of rejecting,
so a failed fetch is indistinguishable by return value from a backend whose
collection is empty. -/
theorem claim_fetch_failure_empty :
    (∀ e : ApiError, fetchAvailableTasks (.failure e) = []) ∧
    (∀ e : ApiError, fetchAvailableTaskResults (.failure e) = []) ∧
    fetchAvailableTasks (.failure "network down") =
      fetchAvailableTasks (.collection []) :=
  ⟨fun _ => rfl, fun _ => rfl, rfl⟩

/-- C3 counterexample: `fetchItem` is an API Facade operation (it is a field
of the provider's `value` object) other than `deleteItem`, yet on a failing
remote call it shows zero error notifications — not exactly one — while
re-raising the failure. -/
theorem claim_fetchItem_failure_silent_cex :
    ¬ (countErrorNotify
        (fetchItem (α := AliceChat) (.error "network down")).1 = 1) ∧
    (fetchItem (α := AliceChat) (.error "network down")).2 =
      .error "network down" := by
  exact ⟨by decide, rfl⟩

/-- C3 amended: every API Facade operation except `deleteItem`, `fetchItem`
and `retrieveFile`, when its own remote call fails, shows exactly one error
notification and then re-raises the failure to its caller; `fetchItem` and
`retrieveFile` are exposed unwrapped and re-raise without any notification.
For `requestFileTranscript` both of its own remote calls are covered: the
initial file fetch, and the transcription call in either dialog branch. -/
theorem claim_wrapped_ops_error_notification :
    (∀ (α : Type) (c : String) (e : ApiError),
      countErrorNotify (createItem (α := α) c (.error e)).1 = 1 ∧
      (createItem (α := α) c (.error e)).2 = .error e) ∧
    (∀ (α : Type) (c i : String) (e : ApiError),
      countErrorNotify (updateItem (α := α) c i (.error e)).1 = 1 ∧
      (updateItem (α := α) c i (.error e)).2 = .error e) ∧
    (∀ (α : Type) (e : ApiError),
      countErrorNotify (executeTask (α := α) (.error e)).1 = 1 ∧
      (executeTask (α := α) (.error e)).2 = .error e) ∧
    (∀ (e : ApiError) (refetch : Except ApiError AliceChat),
      countErrorNotify (generateChatResponse (.error e) refetch).1 = 1 ∧
      (generateChatResponse (.error e) refetch).2 = .error e) ∧
    (∀ (e : ApiError),
      countErrorNotify (sendMessage (.error e)).1 = 1 ∧
      (sendMessage (.error e)).2 = .error e) ∧
    (∀ (e : ApiError),
      countErrorNotify (uploadFileContentReference (.error e)).1 = 1 ∧
      (uploadFileContentReference (.error e)).2 = .error e) ∧
    (∀ (e : ApiError),
      countErrorNotify (updateFile (.error e)).1 = 1 ∧
      (updateFile (.error e)).2 = .error e) ∧
    (∀ (e : ApiError) (refetch : Except ApiError AliceChat),
      countErrorNotify (updateMessageInChat (.error e) refetch).1 = 1 ∧
      (updateMessageInChat (.error e) refetch).2 = .error e) ∧
    (∀ (e : ApiError),
      countErrorNotify (purgeAndReinitializeDatabase (.error e)).1 = 1 ∧
      (purgeAndReinitializeDatabase (.error e)).2 = .error e) ∧
    (∀ (i : String) (e : ApiError) (gn : Bool)
       (tr : Except ApiError MessageType) (p : Except ApiError FileReference),
      countErrorNotify (requestFileTranscript i (.error e) gn tr p).1 = 1 ∧
      (requestFileTranscript i (.error e) gn tr p).2 = .error e) ∧
    (∀ (i fid : String) (t : MessageType) (e : ApiError)
       (p : Except ApiError FileReference),
      countErrorNotify
        (requestFileTranscript i (.ok ⟨some fid, some t⟩) true (.error e) p).1
          = 1 ∧
      (requestFileTranscript i (.ok ⟨some fid, some t⟩) true (.error e) p).2 =
        .error e) ∧
    (∀ (i fid : String) (e : ApiError) (gn : Bool)
       (p : Except ApiError FileReference),
      countErrorNotify
        (requestFileTranscript i (.ok ⟨some fid, none⟩) gn (.error e) p).1
          = 1 ∧
      (requestFileTranscript i (.ok ⟨some fid, none⟩) gn (.error e) p).2 =
        .error e) ∧
    (∀ (α : Type) (e : ApiError),
      countErrorNotify (fetchItem (α := α) (.error e)).1 = 0 ∧
      (fetchItem (α := α) (.error e)).2 = .error e) ∧
    (∀ (α : Type) (e : ApiError),
      countErrorNotify (retrieveFile (α := α) (.error e)).1 = 0 ∧
      (retrieveFile (α := α) (.error e)).2 = .error e) := by
  refine ⟨fun _ _ _ => ⟨rfl, rfl⟩, fun _ _ _ _ => ⟨rfl, rfl⟩,
    fun _ _ => ⟨rfl, rfl⟩, fun _ refetch => ⟨rfl, rfl⟩, fun _ => ⟨rfl, rfl⟩,
    fun _ => ⟨rfl, rfl⟩, fun _ => ⟨rfl, rfl⟩, fun _ refetch => ⟨rfl, rfl⟩,
    fun _ => ⟨rfl, rfl⟩, fun _ _ _ _ _ => ⟨rfl, rfl⟩,
    fun _ _ _ _ _ => ⟨rfl, rfl⟩, fun _ _ _ gn _ => ⟨rfl, rfl⟩,
    fun _ _ => ⟨rfl, rfl⟩, fun _ _ => ⟨rfl, rfl⟩⟩

/-- C4: `requestFileTranscript` on a file with an existing transcript calls
the transcription endpoint only when the user chooses "Generate New" (zero
transcription calls on "Use Existing", which resolves with the existing
transcript); when it does regenerate it persists through `updateItem` and
resolves with the new transcript; on a file without a transcript it
transcribes and persists unconditionally (whatever the dialog oracle holds,
since no dialog opens) and resolves with the generated message. -/
theorem claim_requestFileTranscript_dialog :
    (∀ (i fid : String) (t : MessageType) (tr : Except ApiError MessageType)
       (p : Except ApiError FileReference),
      countCallsTo "requestFileTranscript"
        (requestFileTranscript i (.ok ⟨some fid, some t⟩) false tr p).1 = 0 ∧
      (requestFileTranscript i (.ok ⟨some fid, some t⟩) false tr p).2 =
        .ok t) ∧
    (∀ (i fid : String) (t newT : MessageType) (updated : FileReference),
      countCallsTo "requestFileTranscript"
        (requestFileTranscript i (.ok ⟨some fid, some t⟩) true (.ok newT)
          (.ok updated)).1 = 1 ∧
      countCallsTo "updateItem"
        (requestFileTranscript i (.ok ⟨some fid, some t⟩) true (.ok newT)
          (.ok updated)).1 = 1 ∧
      (requestFileTranscript i (.ok ⟨some fid, some t⟩) true (.ok newT)
        (.ok updated)).2 = .ok newT) ∧
    (∀ (i fid : String) (newT : MessageType) (updated : FileReference)
       (gn : Bool),
      countCallsTo "requestFileTranscript"
        (requestFileTranscript i (.ok ⟨some fid, none⟩) gn (.ok newT)
          (.ok updated)).1 = 1 ∧
      countCallsTo "updateItem"
        (requestFileTranscript i (.ok ⟨some fid, none⟩) gn (.ok newT)
          (.ok updated)).1 = 1 ∧
      (requestFileTranscript i (.ok ⟨some fid, none⟩) gn (.ok newT)
        (.ok updated)).2 = .ok newT) := by
  refine ⟨fun _ _ _ _ _ => ⟨?_, rfl⟩, fun _ _ _ _ _ => ⟨?_, ?_, rfl⟩,
    fun _ _ _ _ gn => ⟨?_, ?_, rfl⟩⟩ <;>
    simp [requestFileTranscript, updateItem, countCallsTo]

/-- Unfolding of the trimming loop over a snoc: one iteration pops a trailing
non-user message; a trailing user message stops the loop. -/
theorem trimTrailingNonUser_concat (ms : List MessageType) (m : MessageType) :
    trimTrailingNonUser (ms ++ [m]) =
      if m.role ≠ "user" then trimTrailingNonUser ms else ms ++ [m] := by
  rw [trimTrailingNonUser]
  split
  · next h => simp at h
  · next x h =>
      rw [List.getLast?_concat] at h
      injection h with h
      subst h
      rw [List.dropLast_concat]

/-- The loop of `handleRegenerateResponse` computes exactly the removal of the
maximal trailing run of non-user messages: reversed, it is `dropWhile` on the
leading non-user run. -/
theorem trimTrailingNonUser_eq_dropWhile (ms : List MessageType) :
    trimTrailingNonUser ms =
      (ms.reverse.dropWhile (fun m => m.role != "user")).reverse := by
  induction ms using List.reverseRecOn with
  | nil => rw [trimTrailingNonUser]; rfl
  | append_singleton ms m ih =>
      rw [trimTrailingNonUser_concat]
      by_cases hm : m.role = "user"
      · simp [hm, List.dropWhile_cons]
      · simp [hm, List.dropWhile_cons, ih]

/-- C6: `handleRegenerateResponse`, whenever a chat is selected, hands the
facade's `updateItem` exactly the current message list with its maximal
trailing run of non-user messages removed (the `dropWhile`-on-the-reverse
characterization); on the concrete sequence
`[user:"hi", assistant:"a", assistant:"b"]` with a successful persist the
persisted list is `[user:"hi"]` and the local list equals it before
`generateResponse` refreshes anything; a list with no user message at all
trims to the empty list. -/
theorem claim_handleRegenerateResponse_trims :
    (∀ ms : List MessageType,
      trimTrailingNonUser ms =
        (ms.reverse.dropWhile (fun m => m.role != "user")).reverse) ∧
    (∀ (s : ChatState) (cid : String) (persistRemote : Except ApiError AliceChat)
       (genRemote : Except ApiError Bool) (genRefetch : Except ApiError AliceChat),
      s.currentChatId = some cid →
      (handleRegenerateResponse s persistRemote genRemote genRefetch).2 =
        some (trimTrailingNonUser s.messages)) ∧
    (∀ ms : List MessageType,
      (∀ m ∈ ms, m.role ≠ "user") → trimTrailingNonUser ms = []) ∧
    (∀ (chat : AliceChat),
      (handleRegenerateResponse
          { messages := [⟨"user", "hi"⟩, ⟨"assistant", "a"⟩, ⟨"assistant", "b"⟩],
            currentChatId := some "chat1", agents := [],
            isGenerating := false, currentChat := none }
          (.ok chat) (.ok false) (.ok chat)).2 =
        some [⟨"user", "hi"⟩] ∧
      (handleRegenerateResponse
          { messages := [⟨"user", "hi"⟩, ⟨"assistant", "a"⟩, ⟨"assistant", "b"⟩],
            currentChatId := some "chat1", agents := [],
            isGenerating := false, currentChat := none }
          (.ok chat) (.ok false) (.ok chat)).1.messages =
        [⟨"user", "hi"⟩]) := by
  have hchar := trimTrailingNonUser_eq_dropWhile
  refine ⟨hchar, ?_, ?_, ?_⟩
  · intro s cid persistRemote genRemote genRefetch h
    cases persistRemote <;> simp [handleRegenerateResponse, h]
  · intro ms h
    rw [hchar, List.reverse_eq_nil_iff, List.dropWhile_eq_nil_iff]
    intro m hm
    simp [h m (List.mem_reverse.mp hm)]
  · intro chat
    constructor <;>
      simp [handleRegenerateResponse, generateResponse, hchar,
        List.dropWhile_cons]

/-- Witness for C6 at concrete inputs: a selected chat whose only message is
from the assistant reports the trimmed (here: empty) list as the persisted
payload, and a list with no user message trims to `[]`. -/
theorem claim_handleRegenerateResponse_trims_witness :
    (handleRegenerateResponse
        { messages := [⟨"assistant", "x"⟩], currentChatId := some "c6",
          agents := [], isGenerating := false, currentChat := none }
        (.error "boom") (.ok false) (.error "boom")).2 =
      some (trimTrailingNonUser [⟨"assistant", "x"⟩]) ∧
    trimTrailingNonUser [⟨"assistant", "x"⟩] = [] :=
  ⟨claim_handleRegenerateResponse_trims.2.1 _ "c6" _ _ _ rfl,
   claim_handleRegenerateResponse_trims.2.2.1 _ (by decide)⟩

/-- With a selected chat, `generateResponse` ends with the flag cleared on
every branch: rejection, truthy result (whether or not the refresh fetch
succeeds), and falsy result. -/
theorem generateResponse_isGenerating_some (s : ChatState) (cid : String)
    (remote : Except ApiError Bool) (refetch : Except ApiError AliceChat)
    (h : s.currentChatId = some cid) :
    (generateResponse s remote refetch).isGenerating = false := by
  cases remote with
  | error e => simp [generateResponse, h]
  | ok b => cases b <;> simp [generateResponse, h]

/-- `generateResponse` never sets the flag when it was clear: the no-op branch
keeps the state, the others clear it in `finally`. -/
theorem generateResponse_isGenerating_preserved (s : ChatState)
    (remote : Except ApiError Bool) (refetch : Except ApiError AliceChat)
    (h : s.isGenerating = false) :
    (generateResponse s remote refetch).isGenerating = false := by
  match hc : s.currentChatId with
  | none => simpa [generateResponse, hc] using h
  | some cid => exact generateResponse_isGenerating_some s cid remote refetch hc

/-- `handleSelectChat` never touches the generation flag. -/
theorem handleSelectChat_isGenerating (s : ChatState) (cid : String)
    (fetched : Except ApiError AliceChat) :
    (handleSelectChat s cid fetched).isGenerating = s.isGenerating := by
  cases fetched <;> rfl

/-- `addTaskToChat` never touches the generation flag. -/
theorem addTaskToChat_isGenerating (s : ChatState) (b : Backend)
    (taskId : String) :
    ((addTaskToChat s b taskId).1).isGenerating = s.isGenerating := by
  unfold addTaskToChat
  split
  · split
    · rfl
    · split
      · rfl
      · split
        · rfl
        · exact handleSelectChat_isGenerating ..
  · rfl

/-- Every settled controller operation leaves a clear generation flag clear. -/
theorem chatStep_isGenerating (s : ChatState) (op : ChatOp)
    (h : s.isGenerating = false) : (chatStep s op).isGenerating = false := by
  cases op with
  | selectChat cid fetched =>
      rw [chatStep, handleSelectChat_isGenerating]; exact h
  | sendChatMessage m sendRemote genRemote genRefetch =>
      cases sendRemote with
      | error e => simpa [chatStep, handleSendMessage] using h
      | ok c =>
          rw [chatStep]
          exact generateResponse_isGenerating_preserved _ _ _ (by simpa using h)
  | generate genRemote genRefetch =>
      exact generateResponse_isGenerating_preserved _ _ _ h
  | regenerate persistRemote genRemote genRefetch =>
      rw [chatStep]
      match hc : s.currentChatId with
      | none => simpa [handleRegenerateResponse, hc] using h
      | some cid =>
          cases persistRemote with
          | error e => simpa [handleRegenerateResponse, hc] using h
          | ok c =>
              simp only [handleRegenerateResponse, hc]
              exact generateResponse_isGenerating_preserved _ _ _ (by simpa using h)
  | addTask b taskId =>
      rw [chatStep, addTaskToChat_isGenerating]; exact h

/-- A clear generation flag is an invariant of every settled run. -/
theorem runChatOps_isGenerating (ops : List ChatOp) :
    ∀ s : ChatState, s.isGenerating = false →
      (runChatOps s ops).isGenerating = false := by
  induction ops with
  | nil => exact fun _ h => h
  | cons op ops ih =>
      exact fun s h => ih _ (chatStep_isGenerating s op h)

/-- C7: `generateResponse` leaves `isGenerating = false` after settling on
every exit path. With a chat selected this holds outright, whatever the
remote call and refresh fetch do (resolve truthy, resolve falsy, or reject):
the `finally` block clears the flag. The no-op path (no chat selected)
preserves the flag, and the flag is `false` at every state reachable from the
provider's initial state by settled operations, so there too the handler
settles with the flag `false`. -/
theorem claim_generateResponse_resets_flag :
    (∀ (s : ChatState) (cid : String) (remote : Except ApiError Bool)
       (refetch : Except ApiError AliceChat),
      s.currentChatId = some cid →
      (generateResponse s remote refetch).isGenerating = false) ∧
    (∀ (s : ChatState) (remote : Except ApiError Bool)
       (refetch : Except ApiError AliceChat),
      s.isGenerating = false →
      (generateResponse s remote refetch).isGenerating = false) ∧
    (∀ ops : List ChatOp,
      (runChatOps initialChatState ops).isGenerating = false) :=
  ⟨fun s cid remote refetch h =>
      generateResponse_isGenerating_some s cid remote refetch h,
   fun s remote refetch h =>
      generateResponse_isGenerating_preserved s remote refetch h,
   fun ops => runChatOps_isGenerating ops initialChatState rfl⟩

/-- Witness for C7 at concrete inputs: with chat "c7" selected the flag ends
clear even when the remote generation call rejects, and from the initial
state even when it resolves truthy. -/
theorem claim_generateResponse_resets_flag_witness :
    (generateResponse
        { messages := [], currentChatId := some "c7", agents := [],
          isGenerating := true, currentChat := none }
        (.error "boom") (.error "boom")).isGenerating = false ∧
    (generateResponse initialChatState (.ok true)
        (.ok ⟨some "c", [], ⟨none⟩, []⟩)).isGenerating = false :=
  ⟨claim_generateResponse_resets_flag.1 _ "c7" _ _ rfl,
   claim_generateResponse_resets_flag.2.1 _ _ _ rfl⟩

/-- Updating one chat's functions leaves the task store untouched. -/
theorem storeSetFunctions_tasks (b : Backend) (chatId : String)
    (fns : List AliceTask) : (storeSetFunctions b chatId fns).tasks = b.tasks :=
  rfl

/-- Key lookup after a keyed functions-update of a chat list: the stored
record under the updated key carries exactly the new functions list. -/
theorem storeLookup_setFunctions_aux (l : List (String × AliceChat))
    (chatId : String) (fns : List AliceTask) (chat0 : AliceChat)
    (h : storeLookup l chatId = some chat0) :
    storeLookup
        (l.map fun kv =>
          if kv.1 = chatId then (kv.1, { kv.2 with functions := fns }) else kv)
        chatId =
      some { chat0 with functions := fns } := by
  induction l with
  | nil => simp [storeLookup] at h
  | cons kv rest ih =>
      obtain ⟨k, v⟩ := kv
      rw [List.map_cons]
      by_cases hk : k = chatId
      · subst hk
        rw [storeLookup, if_pos rfl] at h
        injection h with h
        subst h
        show storeLookup
          ((if k = k then (k, { v with functions := fns }) else (k, v)) :: _)
          k = _
        rw [if_pos rfl, storeLookup, if_pos rfl]
      · rw [storeLookup, if_neg hk] at h
        show storeLookup
          ((if k = chatId then (k, { v with functions := fns }) else (k, v))
            :: _) chatId = _
        rw [if_neg hk, storeLookup, if_neg hk]
        exact ih h

/-- Re-fetching a chat right after persisting its functions returns the
stored record with exactly the persisted functions list. -/
theorem storeLookup_setFunctions (b : Backend) (chatId : String)
    (fns : List AliceTask) (chat0 : AliceChat)
    (h : storeLookup b.chats chatId = some chat0) :
    storeLookup (storeSetFunctions b chatId fns).chats chatId =
      some { chat0 with functions := fns } :=
  storeLookup_setFunctions_aux b.chats chatId fns chat0 h

/-- When the task's identifier is already a member of the selected chat's
functions, `addTaskToChat` is a no-op on both the local state and the store. -/
theorem addTaskToChat_noop_of_mem (s : ChatState) (b : Backend)
    (tid cid : String) (chat : AliceChat) (task : AliceTask)
    (h1 : s.currentChatId = some cid) (h2 : s.currentChat = some chat)
    (h3 : storeLookup b.tasks tid = some task)
    (hIn : isTaskInChat s tid = true) :
    addTaskToChat s b tid = (s, b) := by
  unfold addTaskToChat
  rw [h1, h2]
  simp only [h3, hIn, if_true]

/-- C8: with a selected chat whose functions do not yet contain the task's
identifier, a task store holding the task under that identifier, and a chat
store holding the chat record, calling `addTaskToChat` twice with the same
identifier is the same as calling it once — the second call is a no-op
because `isTaskInChat` now finds the identifier — and afterwards the task
identifier occurs exactly once in `currentChat.functions`. -/
theorem claim_addTaskToChat_idempotent
    (s : ChatState) (b : Backend) (cid tid : String) (chat chat0 : AliceChat)
    (task : AliceTask)
    (h1 : s.currentChatId = some cid) (h2 : s.currentChat = some chat)
    (h3 : storeLookup b.tasks tid = some task) (h4 : task._id = some tid)
    (h5 : chat.functions.countP (fun t => t._id == some tid) = 0)
    (h6 : storeLookup b.chats cid = some chat0) :
    addTaskToChat (addTaskToChat s b tid).1 (addTaskToChat s b tid).2 tid =
      addTaskToChat s b tid ∧
    ((addTaskToChat s b tid).1.currentChat.map
        (fun c => c.functions.countP (fun t => t._id == some tid))) =
      some 1 := by
  have hNotIn : isTaskInChat s tid = false := by
    rw [isTaskInChat, h2, List.any_eq_false]
    intro x hx
    exact List.countP_eq_zero.mp h5 x hx
  have hEcho := storeLookup_setFunctions b cid (chat.functions ++ [task])
    chat0 h6
  have hfirst : addTaskToChat s b tid =
      (handleSelectChat s cid
         (.ok { chat0 with functions := chat.functions ++ [task] }),
       storeSetFunctions b cid (chat.functions ++ [task])) := by
    unfold addTaskToChat
    rw [h1, h2]
    simp only [h3, hNotIn, Bool.false_eq_true, if_false, h6, hEcho]
  have hInNow : isTaskInChat
      (handleSelectChat s cid
        (.ok { chat0 with functions := chat.functions ++ [task] })) tid
        = true := by
    show ((chat.functions ++ [task]).any fun t => t._id == some tid) = true
    rw [List.any_eq_true]
    exact ⟨task, List.mem_append_right _ (List.mem_singleton.mpr rfl),
      by rw [h4]; exact beq_self_eq_true _⟩
  constructor
  · rw [hfirst]
    exact addTaskToChat_noop_of_mem _ _ tid cid
      { chat0 with functions := chat.functions ++ [task] } task rfl rfl
      (by rw [storeSetFunctions_tasks]; exact h3) hInNow
  · rw [hfirst]
    show some ((chat.functions ++ [task]).countP fun t => t._id == some tid) =
      some 1
    rw [List.countP_append, h5]
    simp [List.countP_cons, h4]

/-- Witness for C8: a one-chat, one-task store; adding task "t1" twice leaves
it exactly once in the chat's functions, the second call a no-op. -/
theorem claim_addTaskToChat_idempotent_witness :
    addTaskToChat
        (addTaskToChat
          { messages := [], currentChatId := some "c1", agents := [],
            isGenerating := false,
            currentChat := some ⟨some "c1", [], ⟨none⟩, []⟩ }
          { chats := [("c1", ⟨some "c1", [], ⟨none⟩, []⟩)],
            tasks := [("t1", ⟨some "t1"⟩)] } "t1").1
        (addTaskToChat
          { messages := [], currentChatId := some "c1", agents := [],
            isGenerating := false,
            currentChat := some ⟨some "c1", [], ⟨none⟩, []⟩ }
          { chats := [("c1", ⟨some "c1", [], ⟨none⟩, []⟩)],
            tasks := [("t1", ⟨some "t1"⟩)] } "t1").2 "t1" =
      addTaskToChat
        { messages := [], currentChatId := some "c1", agents := [],
          isGenerating := false,
          currentChat := some ⟨some "c1", [], ⟨none⟩, []⟩ }
        { chats := [("c1", ⟨some "c1", [], ⟨none⟩, []⟩)],
          tasks := [("t1", ⟨some "t1"⟩)] } "t1" ∧
    ((addTaskToChat
        { messages := [], currentChatId := some "c1", agents := [],
          isGenerating := false,
          currentChat := some ⟨some "c1", [], ⟨none⟩, []⟩ }
        { chats := [("c1", ⟨some "c1", [], ⟨none⟩, []⟩)],
          tasks := [("t1", ⟨some "t1"⟩)] } "t1").1.currentChat.map
        (fun c => c.functions.countP (fun t => t._id == some "t1"))) =
      some 1 :=
  claim_addTaskToChat_idempotent _ _ "c1" "t1" ⟨some "c1", [], ⟨none⟩, []⟩
    ⟨some "c1", [], ⟨none⟩, []⟩ ⟨some "t1"⟩ rfl rfl rfl rfl (by decide) rfl

end ProjectAlice
